import Mathlib

/-
  Shallow embedding of src/time_announce.cpp (Time-Announcer).

  The program assembles an 8 kHz 16-bit mono PCM buffer (lead silence,
  optional pre-announce clip, synthesized speech, trail silence, padding
  to a 1440-sample LDU boundary) and transmits it as 324-byte datagrams
  (4-byte big-endian length header + 320 bytes of PCM) at a 20 ms cadence.

  External collaborators (the TTS engine invoked through system/popen and
  the sox-based clip loader) are modelled as oracles supplying the sample
  lists the C++ code would read back; the monotonic clock and the sendto
  results of the pacing loop are likewise oracles.  C `float` configuration
  values are modelled as rationals; `static_cast<int>` of a nonnegative
  value is integer truncation, i.e. the floor.
-/

set_option maxRecDepth 8000

namespace TimeAnnounce

/-- `SAMPLE_RATE` from time_announce.cpp line 20. -/
def SAMPLE_RATE : ℕ := 8000

/-- `FRAME_SIZE` (bytes per frame) from time_announce.cpp line 19. -/
def FRAME_SIZE : ℕ := 320

/-- `LDU_SAMPLES = 9 * 160` from generateTTSAudio (line 226). -/
def LDU_SAMPLES : ℕ := 9 * 160

/-- C++ `static_cast<int>` applied to a nonnegative float product, modelled
over ℚ: truncation toward zero, which for nonnegative values is the floor
(clamped to ℕ; the configured durations the claims range over are ≥ 0). -/
def cIntOfRat (q : ℚ) : ℕ := (⌊q⌋).toNat

/-- The `Config` struct (lines 22-52) with its C++ default values.  The
string field `prefix` of the source is named `pfx` here because `prefix`
is a reserved word in Lean. -/
structure Config where
  host : String := "127.0.0.1"
  port : ℤ := 32001
  leadSilence : ℚ := 5
  trailSilence : ℚ := 1
  settleTime : ℚ := 2
  engine : String := "espeak"
  pfx : String := "West Comm, time is"
  use12Hour : Bool := true
  includeAMPM : Bool := true
  preAnnounceFile : String := ""

/-- The default-constructed `Config`. -/
def defaultConfig : Config := {}

/-- Outcome of the external speech source as observed by generateTTSAudio:
either the invocation fails before any sample can be read back
(`system` returning nonzero on the piper path, `fopen`/`popen` returning
NULL — lines 258-261, 267-271, 305-309), which makes the function return
early, or it succeeds and streams back a (possibly empty) sample list. -/
inductive SpeechResult where
  | failed : SpeechResult
  | ok : List ℤ → SpeechResult

/-- The external collaborators of one run: the clip loader's result
(`loadPreAnnounceAudio` returns an empty vector on every failure path,
lines 177-219) and the speech source's outcome. -/
structure ExternalEnv where
  clip : List ℤ
  speech : SpeechResult

/-- Lead-silence sample count, lines 227-229: truncate
`SAMPLE_RATE * leadSilence` to int, then round up to the next multiple of
`LDU_SAMPLES` by `((n + 1439) / 1440) * 1440` in C int arithmetic. -/
def leadSamplesOf (lead : ℚ) : ℕ :=
  ((cIntOfRat ((SAMPLE_RATE : ℚ) * lead) + LDU_SAMPLES - 1) / LDU_SAMPLES) * LDU_SAMPLES

/-- Trail-silence sample count, line 320: `static_cast<int>(SAMPLE_RATE *
config.trailSilence)` — truncation, with no boundary rounding. -/
def trailSamplesOf (trail : ℚ) : ℕ := cIntOfRat ((SAMPLE_RATE : ℚ) * trail)

/-- `generateTTSAudio` (lines 221-335), with the collaborators as oracles.
The buffer starts with `leadSamplesOf` zero samples; if a pre-announce file
is configured the clip loader's samples are appended; then the speech
source runs: on an invocation failure the function returns the buffer as
built so far (the C++ early `return samples;`), otherwise the streamed
samples are appended, then `trailSamplesOf` zero samples, then zero
padding to the next multiple of `LDU_SAMPLES` if the length is not already
a multiple. -/
def generateTTSAudio (env : ExternalEnv) (cfg : Config) : List ℤ :=
  let lead : List ℤ := List.replicate (leadSamplesOf cfg.leadSilence) 0
  let withClip : List ℤ :=
    if cfg.preAnnounceFile = "" then lead else lead ++ env.clip
  match env.speech with
  | SpeechResult.failed => withClip
  | SpeechResult.ok sp =>
      let afterTrail : List ℤ :=
        withClip ++ sp ++ List.replicate (trailSamplesOf cfg.trailSilence) 0
      let r : ℕ := afterTrail.length % LDU_SAMPLES
      if r = 0 then afterTrail else afterTrail ++ List.replicate (LDU_SAMPLES - r) 0

/-- Number of padding samples the final alignment step (lines 325-329)
appends to a buffer of length `n`: zero when `n` is already a multiple of
`LDU_SAMPLES`, otherwise the distance to the next multiple. -/
def padCount (n : ℕ) : ℕ :=
  if n % LDU_SAMPLES = 0 then 0 else LDU_SAMPLES - n % LDU_SAMPLES

/-- The part of the assembled buffer that precedes the speech samples:
lead silence plus (when configured) the pre-announce clip. -/
def preSpeech (env : ExternalEnv) (cfg : Config) : List ℤ :=
  List.replicate (leadSamplesOf cfg.leadSilence) 0 ++
    (if cfg.preAnnounceFile = "" then [] else env.clip)

/-- Index in the assembled buffer at which the synthesized speech samples
begin: everything before them is the lead silence and the optional clip. -/
def speechStartIndex (env : ExternalEnv) (cfg : Config) : ℕ :=
  (preSpeech env cfg).length

/-- The fatal "No audio generated" test in main (lines 411-414):
`samples.empty()`. -/
def noAudioFatal (env : ExternalEnv) (cfg : Config) : Bool :=
  (generateTTSAudio env cfg).isEmpty

/-- main's exit status on the generation path (lines 410-414): 1 exactly
when the assembled buffer is empty, otherwise the run proceeds. -/
def mainGenerationExit (env : ExternalEnv) (cfg : Config) : ℕ :=
  if noAudioFatal env cfg then 1 else 0

/-- Configuration of the C2 counterexample scenario: no lead silence and
a configured pre-announce clip. -/
def cfgZeroLeadClip : Config :=
  { defaultConfig with leadSilence := 0, preAnnounceFile := "clip.wav" }

/-- Configuration of the C3 counterexample scenario: no lead or trail
silence and a configured pre-announce clip. -/
def cfgZeroSilenceClip : Config :=
  { defaultConfig with leadSilence := 0, trailSilence := 0, preAnnounceFile := "clip.wav" }

/-- Configuration with a positive but tiny lead silence (1/8192 s is an
exactly representable IEEE float, and 8000 * (1/8192) = 125/128 < 1). -/
def cfgTinyLead : Config := { defaultConfig with leadSilence := 1 / 8192 }

/-- `"%02d"` formatting of an hour value, used by the 24-hour branch. -/
def pad2 (n : ℕ) : String :=
  if n < 10 then "0" ++ toString n else toString n

/-- The spoken hour of the 12-hour branch (lines 344-345):
`hour = tm_hour % 12; if (hour == 0) hour = 12;`. -/
def spokenHour12 (hour : ℕ) : ℕ :=
  if hour % 12 = 0 then 12 else hour % 12

/-- `getTimeAnnouncement` (lines 337-358) as a function of the current
hour of day (`tm_hour`, 0..23) and the configuration: the snprintf
formats "%s %d o'clock %s", "%s %d o'clock" and "%s %02d hundred hours". -/
def getTimeAnnouncement (hour : ℕ) (cfg : Config) : String :=
  if cfg.use12Hour then
    if cfg.includeAMPM then
      cfg.pfx ++ " " ++ toString (spokenHour12 hour) ++ " o'clock " ++
        (if 12 ≤ hour then "P M" else "A M")
    else
      cfg.pfx ++ " " ++ toString (spokenHour12 hour) ++ " o'clock"
  else
    cfg.pfx ++ " " ++ pad2 hour ++ " hundred hours"

/-- Little-endian 16-bit two's complement image of a sample, as laid out
in the `std::vector<int16_t>` memory the transport reinterprets as bytes. -/
def sampleToBytes (x : ℤ) : List ℕ :=
  [((x % 65536).toNat) % 256, ((x % 65536).toNat) / 256]

/-- The byte stream `reinterpret_cast<const uint8_t*>(samples.data())`
of length `samples.size() * 2` (lines 117-118). -/
def sampleBytes (samples : List ℤ) : List ℕ :=
  samples.flatMap sampleToBytes

/-- Inverse of the byte layout: pair consecutive bytes back into 16-bit
two's complement samples. -/
def bytesToSamples : List ℕ → List ℤ
  | b0 :: b1 :: rest =>
      (if b0 + 256 * b1 < 32768 then ((b0 + 256 * b1 : ℕ) : ℤ)
       else ((b0 + 256 * b1 : ℕ) : ℤ) - 65536) :: bytesToSamples rest
  | _ => []

/-- Big-endian bytes of the 32-bit length header (lines 137-141):
`(len >> 24) & 0xFF`, `(len >> 16) & 0xFF`, `(len >> 8) & 0xFF`,
`len & 0xFF`. -/
def beBytes32 (n : ℕ) : List ℕ :=
  [n / 2 ^ 24 % 256, n / 2 ^ 16 % 256, n / 2 ^ 8 % 256, n % 256]

/-- The constant 4-byte header of every packet: `FRAME_SIZE` (320) in
big-endian. -/
def packetHeader : List ℕ := beBytes32 FRAME_SIZE

/-- The 320 data bytes of the packet built for the frame at the head of
`data` (lines 143-145): `memset` to zero, then `memcpy` of
`chunkSize = min(FRAME_SIZE, remaining)` bytes. -/
def framePayload (data : List ℕ) : List ℕ :=
  data.take FRAME_SIZE ++ List.replicate (FRAME_SIZE - data.length) 0

/-- One wire packet: header then payload, `4 + FRAME_SIZE` bytes. -/
def buildPacket (data : List ℕ) : List ℕ :=
  packetHeader ++ framePayload data

/-- The sequence of packets the sending loop (lines 130-171) would build
for a byte stream: one per `FRAME_SIZE`-byte chunk, the final partial
chunk zero-padded, `offset` advancing by `FRAME_SIZE` each iteration. -/
def packetize : List ℕ → List (List ℕ)
  | [] => []
  | b :: rest => buildPacket (b :: rest) :: packetize ((b :: rest).drop FRAME_SIZE)
termination_by data => data.length
decreasing_by
  simp only [FRAME_SIZE, List.length_drop, List.length_cons]
  omega

/-- Decoding of a packet sequence: strip each packet's 4-byte header and
concatenate the payloads, in order. -/
def decodePayloads : List (List ℕ) → List ℕ
  | [] => []
  | p :: rest => p.drop 4 ++ decodePayloads rest

/-- What one successfully sent frame leaves behind: the packet put on the
wire and the microseconds the loop then slept (0 when `usleep` was
skipped because the computed remainder was not positive). -/
structure FrameRec where
  packet : List ℕ
  sleptUsec : ℤ
  deriving DecidableEq

/-- The diagnostics sendAudioToDVMBridge prints: the "Sending X bytes
(Y frames)" line (lines 122-124, with Y = totalBytes / FRAME_SIZE), the
`perror("sendto")` line, and the final "Done sending audio" line. -/
inductive Diag where
  | sendingInfo : ℕ → ℕ → Diag
  | sendtoErr : Diag
  | doneMsg : Diag
  deriving DecidableEq

/-- Observable outcome of `sendAudioToDVMBridge`: the frames actually
sent with their pacing sleeps, whether a send error aborted the loop,
whether the socket was closed, and the diagnostic lines.  The C++
function returns `void`: no field of this record is returned to the
caller. -/
structure SendResult where
  frames : List FrameRec
  sendError : Bool
  socketClosed : Bool
  diags : List Diag
  deriving DecidableEq

/-- The paced sending loop (lines 130-171) over the byte stream, with
the `sendto` outcomes and the monotonic clock as oracles: `sendOk i`
tells whether sending frame `i` succeeds, `elapsed i` is the
`elapsedUsec` read from `CLOCK_MONOTONIC` right after frame `i` was
sent.  On success the loop advances `offset` by `FRAME_SIZE`, increments
`frameCount`, computes `sleepUsec = frameCount * 20000 - elapsedUsec`
and sleeps exactly when it is positive; on failure it breaks at once. -/
def sendLoop (sendOk : ℕ → Bool) (elapsed : ℕ → ℤ) :
    List ℕ → ℕ → List FrameRec × Bool
  | [], _ => ([], false)
  | b :: rest, i =>
      if sendOk i then
        let sleepUsec : ℤ := ((i : ℤ) + 1) * 20000 - elapsed i
        let res := sendLoop sendOk elapsed ((b :: rest).drop FRAME_SIZE) (i + 1)
        (⟨buildPacket (b :: rest), if 0 < sleepUsec then sleepUsec else 0⟩ :: res.1, res.2)
      else ([], true)
termination_by data _ => data.length
decreasing_by
  simp only [FRAME_SIZE, List.length_drop, List.length_cons]
  omega

/-- `sendAudioToDVMBridge` (lines 104-175): reinterpret the samples as
bytes, print the "Sending" line, run the paced loop, close the socket
unconditionally, print "Done sending audio".  The function is `void`. -/
def sendAudioToDVMBridge (samples : List ℤ) (sendOk : ℕ → Bool)
    (elapsed : ℕ → ℤ) : SendResult :=
  let data := sampleBytes samples
  let res := sendLoop sendOk elapsed data 0
  { frames := res.1
    sendError := res.2
    socketClosed := true
    diags := [Diag.sendingInfo data.length (data.length / FRAME_SIZE)] ++
      (if res.2 then [Diag.sendtoErr] else []) ++ [Diag.doneMsg] }

/-! Shared helper lemmas about the embedded definitions. -/

/-- Rounding up to the next multiple of `LDU_SAMPLES` is a multiple of
`LDU_SAMPLES`, bounds the input from above, and is the least such
multiple. -/
theorem roundUpLDU_spec (n : ℕ) :
    LDU_SAMPLES ∣ ((n + LDU_SAMPLES - 1) / LDU_SAMPLES) * LDU_SAMPLES ∧
    n ≤ ((n + LDU_SAMPLES - 1) / LDU_SAMPLES) * LDU_SAMPLES ∧
    ∀ m : ℕ, LDU_SAMPLES ∣ m → n ≤ m →
      ((n + LDU_SAMPLES - 1) / LDU_SAMPLES) * LDU_SAMPLES ≤ m := by
  simp only [LDU_SAMPLES]
  refine ⟨?_, ?_, ?_⟩
  · omega
  · omega
  · rintro m ⟨k, rfl⟩ hnm
    omega

/-- The lead-silence count is itself a multiple of `LDU_SAMPLES`. -/
theorem leadSamplesOf_dvd (lead : ℚ) : LDU_SAMPLES ∣ leadSamplesOf lead :=
  (roundUpLDU_spec (cIntOfRat ((SAMPLE_RATE : ℚ) * lead))).1

/-- When the speech source fails before sample readout, generateTTSAudio
returns just the lead silence plus the optional clip. -/
theorem generateTTSAudio_failed (env : ExternalEnv) (cfg : Config)
    (h : env.speech = SpeechResult.failed) :
    generateTTSAudio env cfg = preSpeech env cfg := by
  unfold generateTTSAudio preSpeech
  rw [h]
  by_cases hp : cfg.preAnnounceFile = "" <;> simp [hp]

/-- When the speech source succeeds (possibly with zero samples), the
assembled buffer decomposes into lead-plus-clip, the speech samples, the
trail silence, and the final boundary padding. -/
theorem generateTTSAudio_ok (env : ExternalEnv) (cfg : Config) (sp : List ℤ)
    (h : env.speech = SpeechResult.ok sp) :
    generateTTSAudio env cfg =
      preSpeech env cfg ++ sp ++
        List.replicate (trailSamplesOf cfg.trailSilence) (0 : ℤ) ++
        List.replicate
          (padCount (preSpeech env cfg ++ sp ++
            List.replicate (trailSamplesOf cfg.trailSilence) (0 : ℤ)).length) (0 : ℤ) := by
  unfold generateTTSAudio preSpeech padCount
  rw [h]
  by_cases hp : cfg.preAnnounceFile = "" <;>
    simp only [hp, if_true, if_false, List.append_nil, List.append_assoc] <;>
    split <;> simp_all

/-- The assembled buffer always begins with the lead silence. -/
theorem generateTTSAudio_exists_tail (env : ExternalEnv) (cfg : Config) :
    ∃ t : List ℤ, generateTTSAudio env cfg =
      List.replicate (leadSamplesOf cfg.leadSilence) (0 : ℤ) ++ t := by
  have hpre : ∃ s : List ℤ, preSpeech env cfg =
      List.replicate (leadSamplesOf cfg.leadSilence) (0 : ℤ) ++ s := ⟨_, rfl⟩
  obtain ⟨s, hsx⟩ := hpre
  cases hs : env.speech with
  | failed =>
      exact ⟨s, by rw [generateTTSAudio_failed env cfg hs, hsx]⟩
  | ok sp =>
      refine ⟨s ++ sp ++ List.replicate (trailSamplesOf cfg.trailSilence) (0 : ℤ) ++
        List.replicate (padCount ((preSpeech env cfg ++ sp ++
          List.replicate (trailSamplesOf cfg.trailSilence) (0 : ℤ)).length)) (0 : ℤ), ?_⟩
      rw [generateTTSAudio_ok env cfg sp hs, hsx]
      simp [List.append_assoc]

/-- Alignment arithmetic of the final padding step: adding `padCount n`
to `n` lands exactly on a multiple of `LDU_SAMPLES`. -/
theorem padCount_aligns (n : ℕ) : (n + padCount n) % LDU_SAMPLES = 0 := by
  unfold padCount
  simp only [LDU_SAMPLES]
  split <;> omega

/-- The assembled buffer always starts with exactly the computed number
of lead-silence zero samples. -/
theorem lead_silence_is_appended (env : ExternalEnv) (cfg : Config) :
    (generateTTSAudio env cfg).take (leadSamplesOf cfg.leadSilence) =
      List.replicate (leadSamplesOf cfg.leadSilence) (0 : ℤ) := by
  obtain ⟨t, ht⟩ := generateTTSAudio_exists_tail env cfg
  rw [ht, List.take_append_eq_append_take]
  simp [List.take_replicate]

/-- Numeric evaluation: `8000 * (1/8192) = 125/128` truncates to 0. -/
theorem cIntOfRat_tiny : cIntOfRat ((SAMPLE_RATE : ℚ) * (1 / 8192)) = 0 := by
  have h : ⌊(SAMPLE_RATE : ℚ) * (1 / 8192)⌋ = 0 := by
    rw [Int.floor_eq_zero_iff]
    constructor <;> norm_num [SAMPLE_RATE]
  unfold cIntOfRat
  rw [h]
  rfl

/-- Numeric evaluation: `8000 * 5` truncates to 40000. -/
theorem cIntOfRat_five : cIntOfRat ((SAMPLE_RATE : ℚ) * 5) = 40000 := by
  have h : ⌊(SAMPLE_RATE : ℚ) * 5⌋ = 40000 := by
    rw [Int.floor_eq_iff]
    norm_num [SAMPLE_RATE]
  unfold cIntOfRat
  rw [h]
  rfl

/-- Numeric evaluation: `8000 * 0` truncates to 0. -/
theorem cIntOfRat_zero : cIntOfRat ((SAMPLE_RATE : ℚ) * 0) = 0 := by
  simp [cIntOfRat]

/-- Numeric evaluation: `8000 * 1` truncates to 8000. -/
theorem cIntOfRat_one : cIntOfRat ((SAMPLE_RATE : ℚ) * 1) = 8000 := by
  have h : ⌊(SAMPLE_RATE : ℚ) * 1⌋ = 8000 := by
    rw [Int.floor_eq_iff]
    norm_num [SAMPLE_RATE]
  unfold cIntOfRat
  rw [h]
  rfl

/-- Lead-silence count at the tiny positive configuration value. -/
theorem leadSamplesOf_tiny : leadSamplesOf (1 / 8192) = 0 := by
  unfold leadSamplesOf
  rw [cIntOfRat_tiny]
  decide

/-- Lead-silence count at `leadSilence = 0`. -/
theorem leadSamplesOf_zero : leadSamplesOf 0 = 0 := by
  unfold leadSamplesOf
  rw [cIntOfRat_zero]
  decide

/-- Lead-silence count at the default `leadSilence = 5`. -/
theorem leadSamplesOf_five : leadSamplesOf 5 = 40320 := by
  unfold leadSamplesOf
  rw [cIntOfRat_five]
  decide

/-- Trail-silence count at the default `trailSilence = 1`. -/
theorem trailSamplesOf_one : trailSamplesOf 1 = 8000 := by
  unfold trailSamplesOf
  rw [cIntOfRat_one]

/-- Trail-silence count at `trailSilence = 0`. -/
theorem trailSamplesOf_zero : trailSamplesOf 0 = 0 := by
  unfold trailSamplesOf
  rw [cIntOfRat_zero]

/-- Trail-silence count at the tiny positive configuration value. -/
theorem trailSamplesOf_tiny : trailSamplesOf (1 / 8192) = 0 := by
  unfold trailSamplesOf
  rw [cIntOfRat_tiny]

/-- C1, counterexample: at `leadSilenceSeconds = 1/8192` (an exactly
representable float) the assembler appends 0 lead-silence samples, while
`sampleRate * leadSilenceSeconds = 125/128 > 0`, so the appended count is
not a multiple of 1440 that is ≥ `sampleRate * leadSilenceSeconds`: the
smallest such multiple would be 1440. -/
theorem c1_counterexample :
    leadSamplesOf (1 / 8192) = 0 ∧
    ¬ ((SAMPLE_RATE : ℚ) * (1 / 8192) ≤ (leadSamplesOf (1 / 8192) : ℚ)) := by
  refine ⟨leadSamplesOf_tiny, ?_⟩
  rw [leadSamplesOf_tiny]
  norm_num [SAMPLE_RATE]

/-- C1, amended: for every configured `leadSilenceSeconds ≥ 0` the
lead-silence count appended by generateTTSAudio is a multiple of 1440 and
is the smallest multiple of 1440 that is ≥ the integer truncation of
`sampleRate * leadSilenceSeconds`; in particular it is 40320 for
`leadSilenceSeconds = 5` at `sampleRate = 8000`, and the buffer indeed
begins with that many zero samples. -/
theorem c1_amended (lead : ℚ) (h : 0 ≤ lead) :
    LDU_SAMPLES ∣ leadSamplesOf lead ∧
    cIntOfRat ((SAMPLE_RATE : ℚ) * lead) ≤ leadSamplesOf lead ∧
    (∀ m : ℕ, LDU_SAMPLES ∣ m → cIntOfRat ((SAMPLE_RATE : ℚ) * lead) ≤ m →
      leadSamplesOf lead ≤ m) ∧
    leadSamplesOf 5 = 40320 ∧
    ∀ env cfg, (generateTTSAudio env cfg).take (leadSamplesOf cfg.leadSilence) =
      List.replicate (leadSamplesOf cfg.leadSilence) (0 : ℤ) := by
  obtain ⟨d1, d2, d3⟩ := roundUpLDU_spec (cIntOfRat ((SAMPLE_RATE : ℚ) * lead))
  exact ⟨d1, d2, d3, leadSamplesOf_five, lead_silence_is_appended⟩

/-- C1, witness for the amended theorem at `lead = 5`. -/
theorem c1_amended_witness :
    (0 : ℚ) ≤ 5 ∧
    (LDU_SAMPLES ∣ leadSamplesOf 5 ∧
    cIntOfRat ((SAMPLE_RATE : ℚ) * 5) ≤ leadSamplesOf 5 ∧
    (∀ m : ℕ, LDU_SAMPLES ∣ m → cIntOfRat ((SAMPLE_RATE : ℚ) * 5) ≤ m →
      leadSamplesOf 5 ≤ m) ∧
    leadSamplesOf 5 = 40320 ∧
    ∀ env cfg, (generateTTSAudio env cfg).take (leadSamplesOf cfg.leadSilence) =
      List.replicate (leadSamplesOf cfg.leadSilence) (0 : ℤ)) :=
  ⟨by norm_num, c1_amended 5 (by norm_num)⟩

/-- C2, counterexample: with a configured pre-announce clip of 1 sample,
`leadSilence = 0` and a speech-source invocation failure, the assembler
returns early with a buffer of length 1, which is not a multiple of
1440. -/
theorem c2_counterexample :
    ¬ ((generateTTSAudio ⟨[7], SpeechResult.failed⟩ cfgZeroLeadClip).length
          % LDU_SAMPLES = 0) := by
  rw [generateTTSAudio_failed _ _ rfl]
  simp [preSpeech, cfgZeroLeadClip, defaultConfig, leadSamplesOf_zero, LDU_SAMPLES]

/-- C2, amended: whenever the speech-source invocation itself does not
fail before sample readout (it may well yield zero samples), the length
of the buffer returned by generateTTSAudio is an exact multiple of 1440;
on the early-failure return paths the buffer is the lead silence plus the
optional clip, with no boundary padding applied. -/
theorem c2_amended (env : ExternalEnv) (cfg : Config) (sp : List ℤ)
    (h : env.speech = SpeechResult.ok sp) :
    (generateTTSAudio env cfg).length % LDU_SAMPLES = 0 := by
  rw [generateTTSAudio_ok env cfg sp h]
  have hp := padCount_aligns
    (preSpeech env cfg ++ sp ++
      List.replicate (trailSamplesOf cfg.trailSilence) (0 : ℤ)).length
  simp only [List.length_append, List.length_replicate] at hp ⊢
  omega

/-- C2, witness for the amended theorem: empty speech output under the
default configuration. -/
theorem c2_amended_witness :
    (⟨[], SpeechResult.ok []⟩ : ExternalEnv).speech = SpeechResult.ok [] ∧
    (generateTTSAudio ⟨[], SpeechResult.ok []⟩ defaultConfig).length % LDU_SAMPLES = 0 :=
  ⟨rfl, c2_amended ⟨[], SpeechResult.ok []⟩ defaultConfig [] rfl⟩

/-- C3, counterexample: with `leadSilence = 0` and a configured
pre-announce clip of one sample, the synthesized speech begins at index
1 of the assembled buffer, which is not a multiple of 1440. -/
theorem c3_counterexample :
    ¬ (LDU_SAMPLES ∣ speechStartIndex ⟨[7], SpeechResult.ok [9]⟩ cfgZeroSilenceClip) ∧
    ((generateTTSAudio ⟨[7], SpeechResult.ok [9]⟩ cfgZeroSilenceClip).drop
      (speechStartIndex ⟨[7], SpeechResult.ok [9]⟩ cfgZeroSilenceClip)).take 1 = [9] := by
  have hidx : speechStartIndex ⟨[7], SpeechResult.ok [9]⟩ cfgZeroSilenceClip = 1 := by
    simp [speechStartIndex, preSpeech, cfgZeroSilenceClip, defaultConfig, leadSamplesOf_zero]
  constructor
  · rw [hidx]
    decide
  · rw [hidx, generateTTSAudio_ok _ _ [9] rfl]
    simp [preSpeech, cfgZeroSilenceClip, defaultConfig, leadSamplesOf_zero, trailSamplesOf_zero]

/-- C3, amended: the synthesized speech begins at index
`leadSamples + clipLength` of the assembled buffer; that index is a
multiple of 1440 whenever the appended clip length is a multiple of 1440
(in particular when no pre-announce clip is configured), but not for a
clip of arbitrary sample length. -/
theorem c3_amended (env : ExternalEnv) (cfg : Config) (sp : List ℤ)
    (h : env.speech = SpeechResult.ok sp) :
    ((generateTTSAudio env cfg).drop (speechStartIndex env cfg)).take sp.length = sp ∧
    speechStartIndex env cfg = leadSamplesOf cfg.leadSilence +
      (if cfg.preAnnounceFile = "" then 0 else env.clip.length) ∧
    (LDU_SAMPLES ∣ (if cfg.preAnnounceFile = "" then 0 else env.clip.length) →
      LDU_SAMPLES ∣ speechStartIndex env cfg) := by
  have hidx : speechStartIndex env cfg = leadSamplesOf cfg.leadSilence +
      (if cfg.preAnnounceFile = "" then 0 else env.clip.length) := by
    unfold speechStartIndex preSpeech
    by_cases hp : cfg.preAnnounceFile = "" <;> simp [hp]
  refine ⟨?_, hidx, ?_⟩
  · rw [generateTTSAudio_ok env cfg sp h]
    have harr : preSpeech env cfg ++ sp ++
        List.replicate (trailSamplesOf cfg.trailSilence) (0 : ℤ) ++
        List.replicate (padCount (preSpeech env cfg ++ sp ++
          List.replicate (trailSamplesOf cfg.trailSilence) (0 : ℤ)).length) (0 : ℤ) =
        preSpeech env cfg ++ (sp ++
          (List.replicate (trailSamplesOf cfg.trailSilence) (0 : ℤ) ++
           List.replicate (padCount (preSpeech env cfg ++ sp ++
             List.replicate (trailSamplesOf cfg.trailSilence) (0 : ℤ)).length) (0 : ℤ))) := by
      simp [List.append_assoc]
    rw [harr]
    unfold speechStartIndex
    rw [List.drop_left, List.take_append_eq_append_take]
    simp
  · intro hdvd
    rw [hidx]
    exact Nat.dvd_add (leadSamplesOf_dvd cfg.leadSilence) hdvd

/-- C3, witness for the amended theorem: no clip configured, one speech
sample, default silences. -/
theorem c3_amended_witness :
    (⟨[], SpeechResult.ok [9]⟩ : ExternalEnv).speech = SpeechResult.ok [9] ∧
    (((generateTTSAudio ⟨[], SpeechResult.ok [9]⟩ defaultConfig).drop
        (speechStartIndex ⟨[], SpeechResult.ok [9]⟩ defaultConfig)).take
          ([(9 : ℤ)]).length = [(9 : ℤ)] ∧
    speechStartIndex ⟨[], SpeechResult.ok [9]⟩ defaultConfig =
      leadSamplesOf defaultConfig.leadSilence +
        (if defaultConfig.preAnnounceFile = "" then 0
         else ([] : List ℤ).length) ∧
    (LDU_SAMPLES ∣ (if defaultConfig.preAnnounceFile = "" then 0
        else ([] : List ℤ).length) →
      LDU_SAMPLES ∣ speechStartIndex ⟨[], SpeechResult.ok [9]⟩ defaultConfig)) :=
  ⟨rfl, c3_amended ⟨[], SpeechResult.ok [9]⟩ defaultConfig [9] rfl⟩

/-- The §8 scenario buffer: empty speech output, no clip, default
configuration (lead 5 s, trail 1 s): 40320 lead + 8000 trail + 640
padding = 48960 zero samples. -/
theorem emptySpeech_default_buffer :
    generateTTSAudio ⟨[], SpeechResult.ok []⟩ defaultConfig =
      List.replicate 48960 (0 : ℤ) := by
  have hd := generateTTSAudio_ok ⟨[], SpeechResult.ok []⟩ defaultConfig [] rfl
  have hpre : preSpeech ⟨[], SpeechResult.ok []⟩ defaultConfig =
      List.replicate 40320 (0 : ℤ) := by
    unfold preSpeech
    rw [show defaultConfig.leadSilence = 5 from rfl, leadSamplesOf_five, ite_self,
      List.append_nil]
  have htr : trailSamplesOf defaultConfig.trailSilence = 8000 := trailSamplesOf_one
  rw [hd, hpre, htr]
  have hlen : (List.replicate 40320 (0 : ℤ) ++ [] ++ List.replicate 8000 (0 : ℤ)).length
      = 48320 := by
    rw [List.append_nil, List.length_append, List.length_replicate, List.length_replicate]
  have hpad : padCount 48320 = 640 := by
    unfold padCount
    simp only [LDU_SAMPLES]
    split
    · omega
    · omega
  rw [hlen, hpad, List.append_nil, ← List.replicate_add, ← List.replicate_add]

/-- C4, counterexample: for empty synthesis output, no pre-announce clip
and trail = 1 s under the default configuration, the assembled buffer has
48960 samples — nonzero length — and main does NOT take the fatal
"No audio generated" branch: the run proceeds with exit 0 instead of
reporting failure. -/
theorem c4_counterexample :
    (generateTTSAudio ⟨[], SpeechResult.ok []⟩ defaultConfig).length = 48960 ∧
    noAudioFatal ⟨[], SpeechResult.ok []⟩ defaultConfig = false ∧
    mainGenerationExit ⟨[], SpeechResult.ok []⟩ defaultConfig = 0 := by
  have hb := emptySpeech_default_buffer
  refine ⟨by rw [hb, List.length_replicate], ?_, ?_⟩
  · unfold noAudioFatal
    rw [hb]
    rfl
  · unfold mainGenerationExit noAudioFatal
    rw [hb]
    rfl

/-- C4, amended: with empty speech output and no pre-announce clip the
assembler still appends the trail silence (8000 zero samples at
trail = 1 s) and the boundary padding, yielding 48960 zero samples in
total, but the pipeline does not report failure: the buffer is nonempty,
the fatal branch is not taken, and the run proceeds to transmit pure
silence. -/
theorem c4_amended :
    generateTTSAudio ⟨[], SpeechResult.ok []⟩ defaultConfig =
      List.replicate 48960 (0 : ℤ) ∧
    trailSamplesOf defaultConfig.trailSilence = 8000 ∧
    noAudioFatal ⟨[], SpeechResult.ok []⟩ defaultConfig = false ∧
    mainGenerationExit ⟨[], SpeechResult.ok []⟩ defaultConfig = 0 := by
  have hb := emptySpeech_default_buffer
  refine ⟨hb, trailSamplesOf_one, ?_, ?_⟩
  · unfold noAudioFatal
    rw [hb]
    rfl
  · unfold mainGenerationExit noAudioFatal
    rw [hb]
    rfl

/-- C8, counterexample: at `trailSilenceSeconds = 1/8192` (an exactly
representable float, with `8000 * (1/8192) = 125/128`) the code appends
0 trail samples, while rounding to nearest would give 1. -/
theorem c8_counterexample :
    trailSamplesOf (1 / 8192) = 0 ∧
    round ((SAMPLE_RATE : ℚ) * (1 / 8192)) = 1 := by
  refine ⟨trailSamplesOf_tiny, ?_⟩
  rw [round_eq, Int.floor_eq_iff]
  norm_num [SAMPLE_RATE]

/-- C8, amended: the number of trail-silence zero samples appended after
the speech samples equals the integer TRUNCATION of
`sampleRate * trailSilenceSeconds` (not round-to-nearest), and no
boundary rounding is applied at that stage: the buffer is exactly
lead-and-clip, speech, that many zeros, and then the separate LDU
padding. -/
theorem c8_amended (env : ExternalEnv) (cfg : Config) (sp : List ℤ)
    (h : env.speech = SpeechResult.ok sp) :
    trailSamplesOf cfg.trailSilence = (⌊(SAMPLE_RATE : ℚ) * cfg.trailSilence⌋).toNat ∧
    generateTTSAudio env cfg =
      preSpeech env cfg ++ sp ++
        List.replicate (trailSamplesOf cfg.trailSilence) (0 : ℤ) ++
        List.replicate
          (padCount (preSpeech env cfg ++ sp ++
            List.replicate (trailSamplesOf cfg.trailSilence) (0 : ℤ)).length) (0 : ℤ) :=
  ⟨rfl, generateTTSAudio_ok env cfg sp h⟩

/-- C8, witness for the amended theorem: one speech sample under the
default configuration. -/
theorem c8_amended_witness :
    (⟨[], SpeechResult.ok [5]⟩ : ExternalEnv).speech = SpeechResult.ok [5] ∧
    (trailSamplesOf defaultConfig.trailSilence =
        (⌊(SAMPLE_RATE : ℚ) * defaultConfig.trailSilence⌋).toNat ∧
      generateTTSAudio ⟨[], SpeechResult.ok [5]⟩ defaultConfig =
        preSpeech ⟨[], SpeechResult.ok [5]⟩ defaultConfig ++ [(5 : ℤ)] ++
          List.replicate (trailSamplesOf defaultConfig.trailSilence) (0 : ℤ) ++
          List.replicate
            (padCount (preSpeech ⟨[], SpeechResult.ok [5]⟩ defaultConfig ++ [(5 : ℤ)] ++
              List.replicate (trailSamplesOf defaultConfig.trailSilence) (0 : ℤ)).length)
            (0 : ℤ)) :=
  ⟨rfl, c8_amended ⟨[], SpeechResult.ok [5]⟩ defaultConfig [5] rfl⟩

/-- C10, counterexample: `leadSilence = 1/8192 > 0` truncates to 0 lead
samples, so when the collaborators fail the buffer is empty and the
"no audio generated" branch (exit 1) IS reached: it is not unreachable
for every positive leadSilence. -/
theorem c10_counterexample :
    (0 : ℚ) < cfgTinyLead.leadSilence ∧
    generateTTSAudio ⟨[], SpeechResult.failed⟩ cfgTinyLead = [] ∧
    mainGenerationExit ⟨[], SpeechResult.failed⟩ cfgTinyLead = 1 := by
  have hnil : generateTTSAudio ⟨[], SpeechResult.failed⟩ cfgTinyLead = [] := by
    rw [generateTTSAudio_failed _ _ rfl]
    unfold preSpeech
    rw [show cfgTinyLead.leadSilence = 1 / 8192 from rfl, leadSamplesOf_tiny, ite_self,
      List.append_nil]
    rfl
  refine ⟨by norm_num [cfgTinyLead, defaultConfig], hnil, ?_⟩
  unfold mainGenerationExit noAudioFatal
  rw [hnil]
  rfl

/-- C10, amended: whenever the truncation of `sampleRate * leadSilence`
is at least 1 (in particular for every configured leadSilence ≥ 1/8000 s,
e.g. the default 5 s), the assembled buffer is nonempty on every path —
however the collaborators behave — so the fatal "no audio generated"
branch is unreachable, and total synthesis failure results in a buffer of
pure silence being handed to the transport. -/
theorem c10_amended (env : ExternalEnv) (cfg : Config)
    (hlead : 1 ≤ cIntOfRat ((SAMPLE_RATE : ℚ) * cfg.leadSilence)) :
    generateTTSAudio env cfg ≠ [] ∧
    noAudioFatal env cfg = false ∧
    mainGenerationExit env cfg = 0 ∧
    (env.clip = [] →
      (env.speech = SpeechResult.failed ∨ env.speech = SpeechResult.ok []) →
      ∀ x ∈ generateTTSAudio env cfg, x = 0) := by
  have hL : 1 ≤ leadSamplesOf cfg.leadSilence :=
    le_trans hlead (roundUpLDU_spec _).2.1
  obtain ⟨t, ht⟩ := generateTTSAudio_exists_tail env cfg
  have hne : generateTTSAudio env cfg ≠ [] := by
    rw [ht]
    intro hc
    have hlen := congrArg List.length hc
    simp only [List.length_append, List.length_replicate, List.length_nil] at hlen
    omega
  have hfatal : noAudioFatal env cfg = false := by
    unfold noAudioFatal
    cases hgen : generateTTSAudio env cfg with
    | nil => exact absurd hgen hne
    | cons a l => rfl
  refine ⟨hne, hfatal, by unfold mainGenerationExit; rw [hfatal]; rfl, ?_⟩
  intro hclip hsp x hx
  rcases hsp with hsp | hsp
  · rw [generateTTSAudio_failed env cfg hsp] at hx
    unfold preSpeech at hx
    rw [hclip] at hx
    simp only [ite_self, List.append_nil, List.mem_replicate] at hx
    exact hx.2
  · rw [generateTTSAudio_ok env cfg [] hsp] at hx
    unfold preSpeech at hx
    rw [hclip] at hx
    simp only [ite_self, List.append_nil, List.nil_append, List.mem_append,
      List.mem_replicate] at hx
    tauto

/-- C10, witness for the amended theorem: default configuration with
both collaborators failing. -/
theorem c10_amended_witness :
    1 ≤ cIntOfRat ((SAMPLE_RATE : ℚ) * defaultConfig.leadSilence) ∧
    (generateTTSAudio ⟨[], SpeechResult.failed⟩ defaultConfig ≠ [] ∧
     noAudioFatal ⟨[], SpeechResult.failed⟩ defaultConfig = false ∧
     mainGenerationExit ⟨[], SpeechResult.failed⟩ defaultConfig = 0 ∧
     ((⟨[], SpeechResult.failed⟩ : ExternalEnv).clip = [] →
       ((⟨[], SpeechResult.failed⟩ : ExternalEnv).speech = SpeechResult.failed ∨
        (⟨[], SpeechResult.failed⟩ : ExternalEnv).speech = SpeechResult.ok []) →
       ∀ x ∈ generateTTSAudio ⟨[], SpeechResult.failed⟩ defaultConfig, x = 0)) :=
  ⟨by rw [show defaultConfig.leadSilence = 5 from rfl, cIntOfRat_five]; norm_num,
   c10_amended ⟨[], SpeechResult.failed⟩ defaultConfig
     (by rw [show defaultConfig.leadSilence = 5 from rfl, cIntOfRat_five]; norm_num)⟩

/-- C9: in 12-hour mode with the AM/PM suffix enabled, the announcement
for hour-of-day `h` speaks `spokenHour12 h` — which maps hour 0
(midnight) to 12 — followed by the suffix "P M" exactly when `h ≥ 12` and
"A M" exactly when `h < 12`, the letters separated by a space; at
midnight under the default configuration the full text is
"West Comm, time is 12 o'clock A M". -/
theorem c9_midnight_and_ampm (p : String) (h : ℕ) :
    getTimeAnnouncement h { defaultConfig with pfx := p } =
      p ++ " " ++ toString (spokenHour12 h) ++ " o'clock " ++
        (if 12 ≤ h then "P M" else "A M") ∧
    spokenHour12 0 = 12 ∧
    getTimeAnnouncement 0 defaultConfig = "West Comm, time is 12 o'clock A M" := by
  refine ⟨?_, rfl, ?_⟩
  · unfold getTimeAnnouncement
    rfl
  · unfold getTimeAnnouncement
    rfl

/-- Every frame payload is exactly `FRAME_SIZE` bytes: the copied chunk
plus the zero padding of a final partial frame. -/
theorem framePayload_length (data : List ℕ) :
    (framePayload data).length = FRAME_SIZE := by
  unfold framePayload
  simp only [List.length_append, List.length_take, List.length_replicate, FRAME_SIZE]
  omega

/-- Every packet is the 4-byte header followed by the payload, so has
`4 + FRAME_SIZE` bytes. -/
theorem buildPacket_length (data : List ℕ) :
    (buildPacket data).length = 4 + FRAME_SIZE := by
  unfold buildPacket
  rw [List.length_append, framePayload_length]
  rfl

/-- The first four bytes of every packet are the big-endian constant
header. -/
theorem buildPacket_take_four (data : List ℕ) :
    (buildPacket data).take 4 = packetHeader := by
  unfold buildPacket
  rw [show (4 : ℕ) = packetHeader.length from rfl, List.take_left]

/-- Dropping the 4-byte header of a packet recovers the frame payload. -/
theorem buildPacket_drop_four (data : List ℕ) :
    (buildPacket data).drop 4 = framePayload data := by
  unfold buildPacket
  rw [show (4 : ℕ) = packetHeader.length from rfl, List.drop_left]

/-- Every packet produced by the sending loop has `4 + FRAME_SIZE` bytes
and starts with the constant big-endian header. -/
theorem packetize_mem (data : List ℕ) :
    ∀ p ∈ packetize data, p.length = 4 + FRAME_SIZE ∧ p.take 4 = packetHeader := by
  induction data using packetize.induct with
  | case1 =>
      intro p hp
      simp [packetize] at hp
  | case2 b rest ih =>
      intro p hp
      rw [packetize] at hp
      rcases List.mem_cons.mp hp with hp | hp
      · subst hp
        exact ⟨buildPacket_length _, buildPacket_take_four _⟩
      · exact ih p hp

/-- Concatenating the payloads of the packets of a byte stream and
discarding the final frame's zero padding reproduces the stream. -/
theorem decodePayloads_packetize (data : List ℕ) :
    (decodePayloads (packetize data)).take data.length = data := by
  induction data using packetize.induct with
  | case1 => rfl
  | case2 b rest ih =>
      rw [packetize, decodePayloads, buildPacket_drop_four]
      rcases le_or_lt (b :: rest).length FRAME_SIZE with hle | hlt
      · have hdrop : (b :: rest).drop FRAME_SIZE = [] := List.drop_eq_nil_of_le hle
        rw [hdrop, show packetize [] = [] from by rw [packetize],
          show decodePayloads [] = [] from rfl, List.append_nil]
        unfold framePayload
        rw [List.take_of_length_le hle]
        exact List.take_left _ _
      · have hrep : FRAME_SIZE - (b :: rest).length = 0 := by omega
        unfold framePayload
        rw [hrep, List.replicate_zero, List.append_nil,
          List.take_append_eq_append_take, List.take_take]
        have hmin : min (b :: rest).length FRAME_SIZE = FRAME_SIZE :=
          Nat.min_eq_right (le_of_lt hlt)
        rw [hmin]
        have hlen : ((b :: rest).take FRAME_SIZE).length = FRAME_SIZE := by
          rw [List.length_take]
          exact Nat.min_eq_left (le_of_lt hlt)
        rw [hlen]
        have ih2 : (decodePayloads (packetize ((b :: rest).drop FRAME_SIZE))).take
            ((b :: rest).length - FRAME_SIZE) = (b :: rest).drop FRAME_SIZE := by
          have h0 := ih
          rwa [List.length_drop] at h0
        rw [ih2]
        exact List.take_append_drop _ _

/-- Decoding the byte stream back into 16-bit samples recovers the
original buffer, provided every sample is in the int16 range (as every
`int16_t` is). -/
theorem bytesToSamples_sampleBytes (samples : List ℤ)
    (h : ∀ x ∈ samples, -32768 ≤ x ∧ x < 32768) :
    bytesToSamples (sampleBytes samples) = samples := by
  induction samples with
  | nil => rfl
  | cons x xs ih =>
      have hx := h x (List.mem_cons_self x xs)
      have hrec := ih (fun y hy => h y (List.mem_cons_of_mem _ hy))
      rw [show sampleBytes (x :: xs) = sampleToBytes x ++ sampleBytes xs from rfl]
      unfold sampleToBytes
      rw [show ([(x % 65536).toNat % 256, (x % 65536).toNat / 256] : List ℕ) ++
            sampleBytes xs =
          (x % 65536).toNat % 256 :: ((x % 65536).toNat / 256 :: sampleBytes xs) from rfl]
      rw [bytesToSamples, hrec]
      have hsum : (x % 65536).toNat % 256 + 256 * ((x % 65536).toNat / 256) =
          (x % 65536).toNat := Nat.mod_add_div _ 256
      rw [hsum]
      have h1 : (0 : ℤ) ≤ x % 65536 := Int.emod_nonneg x (by norm_num)
      have h2 : x % 65536 < 65536 := Int.emod_lt_of_pos x (by norm_num)
      congr 1
      split <;> omega

/-- When every send succeeds, the packets put on the wire by the sending
loop are exactly the packetization of the byte stream. -/
theorem sendLoop_all_ok_packets (el : ℕ → ℤ) (data : List ℕ) :
    ∀ j : ℕ, ((sendLoop (fun _ => true) el data j).1).map FrameRec.packet =
      packetize data := by
  induction data using packetize.induct with
  | case1 =>
      intro j
      rw [show sendLoop (fun _ => true) el [] j = ([], false) from by rw [sendLoop],
        show packetize [] = [] from by rw [packetize]]
      rfl
  | case2 b rest ih =>
      intro j
      rw [sendLoop, packetize]
      simp only [if_true]
      rw [List.map_cons]
      exact congrArg _ (ih (j + 1))

/-- Unfolding of the sending loop on an empty byte stream. -/
theorem sendLoop_nil (sendOk : ℕ → Bool) (el : ℕ → ℤ) (j : ℕ) :
    sendLoop sendOk el [] j = ([], false) := by
  rw [sendLoop]

/-- Unfolding of one iteration of the sending loop: on success the
packet and the pacing sleep are recorded and the loop advances one
frame; on failure it stops with the error flag. -/
theorem sendLoop_cons (sendOk : ℕ → Bool) (el : ℕ → ℤ) (b : ℕ) (rest : List ℕ)
    (j : ℕ) :
    sendLoop sendOk el (b :: rest) j =
      if sendOk j then
        (⟨buildPacket (b :: rest),
            if 0 < ((j : ℤ) + 1) * 20000 - el j then ((j : ℤ) + 1) * 20000 - el j
            else 0⟩ ::
          (sendLoop sendOk el ((b :: rest).drop FRAME_SIZE) (j + 1)).1,
         (sendLoop sendOk el ((b :: rest).drop FRAME_SIZE) (j + 1)).2)
      else ([], true) := by
  rw [sendLoop]

/-- Unfolding of one successful iteration of the sending loop. -/
theorem sendLoop_cons_unfold (el : ℕ → ℤ) (b : ℕ) (rest : List ℕ) (j : ℕ) :
    sendLoop (fun _ => true) el (b :: rest) j =
      (⟨buildPacket (b :: rest),
          if 0 < ((j : ℤ) + 1) * 20000 - el j then ((j : ℤ) + 1) * 20000 - el j
          else 0⟩ ::
        (sendLoop (fun _ => true) el ((b :: rest).drop FRAME_SIZE) (j + 1)).1,
       (sendLoop (fun _ => true) el ((b :: rest).drop FRAME_SIZE) (j + 1)).2) := by
  rw [sendLoop]
  simp

/-- The sleep recorded after each successfully sent frame is exactly
`max 0 (frameCount * 20000 - elapsed)` with `frameCount` the 1-based
count of frames sent so far, anchored to the absolute start time. -/
theorem sendLoop_slept (el : ℕ → ℤ) (data : List ℕ) :
    ∀ (j i : ℕ) (r : FrameRec),
      ((sendLoop (fun _ => true) el data j).1).get? i = some r →
      r.sleptUsec = max 0 ((((j + i : ℕ) : ℤ) + 1) * 20000 - el (j + i)) := by
  induction data using packetize.induct with
  | case1 =>
      intro j i r hr
      rw [show sendLoop (fun _ => true) el [] j = ([], false) from by rw [sendLoop]] at hr
      simp at hr
  | case2 b rest ih =>
      intro j i r hr
      rw [sendLoop_cons_unfold] at hr
      rcases i with _ | i2
      · rw [List.get?_cons_zero, Option.some_inj] at hr
        rw [← hr]
        simp only [Nat.add_zero]
        rcases le_or_lt (((j : ℤ) + 1) * 20000 - el j) 0 with hle | hlt
        · rw [if_neg (by omega), max_eq_left hle]
        · rw [if_pos hlt, max_eq_right (le_of_lt hlt)]
      · rw [List.get?_cons_succ] at hr
        have hrec := ih (j + 1) i2 r hr
        rw [hrec, show j + 1 + i2 = j + (i2 + 1) from by omega]

/-- When the first `k` sends succeed and send `k` fails, the loop stops
having sent exactly the first `k` packets, with the error flag set. -/
theorem sendLoop_fail (sendOk : ℕ → Bool) (el : ℕ → ℤ) :
    ∀ (k : ℕ) (data : List ℕ) (j : ℕ),
      (∀ i, i < k → sendOk (j + i) = true) → sendOk (j + k) = false →
      k < (data.length + FRAME_SIZE - 1) / FRAME_SIZE →
      ((sendLoop sendOk el data j).1).map FrameRec.packet = (packetize data).take k ∧
      ((sendLoop sendOk el data j).1).length = k ∧
      (sendLoop sendOk el data j).2 = true := by
  intro k
  induction k with
  | zero =>
      intro data j hok hfail hk
      cases data with
      | nil =>
          simp only [List.length_nil, FRAME_SIZE] at hk
          omega
      | cons b rest =>
          have hj : sendOk j = false := by
            have := hfail
            rwa [Nat.add_zero] at this
          rw [sendLoop, hj]
          exact ⟨rfl, rfl, rfl⟩
  | succ k2 ih =>
      intro data j hok hfail hk
      cases data with
      | nil =>
          simp only [List.length_nil, FRAME_SIZE] at hk
          omega
      | cons b rest =>
          have hj : sendOk j = true := by
            have := hok 0 (Nat.succ_pos k2)
            rwa [Nat.add_zero] at this
          have hok2 : ∀ i, i < k2 → sendOk (j + 1 + i) = true := by
            intro i hi
            have := hok (i + 1) (by omega)
            rwa [show j + (i + 1) = j + 1 + i from by omega] at this
          have hfail2 : sendOk (j + 1 + k2) = false := by
            have := hfail
            rwa [show j + (k2 + 1) = j + 1 + k2 from by omega] at this
          have hk2 : k2 < (((b :: rest).drop FRAME_SIZE).length + FRAME_SIZE - 1) /
              FRAME_SIZE := by
            simp only [List.length_drop, List.length_cons, FRAME_SIZE] at hk ⊢
            omega
          obtain ⟨ih1, ih2, ih3⟩ := ih ((b :: rest).drop FRAME_SIZE) (j + 1) hok2 hfail2 hk2
          rw [sendLoop, hj]
          simp only [if_true]
          rw [packetize, List.take_succ_cons, List.map_cons]
          exact ⟨congrArg _ ih1, by rw [List.length_cons, ih2], ih3⟩

/-- C5: slicing any sample buffer's byte stream into 320-byte frames and
wrapping each into a packet yields packets of exactly `4 + FRAME_SIZE`
bytes beginning with the big-endian constant-320 header; concatenating
the packets' payloads and discarding the final frame's zero padding
reproduces the byte stream exactly, and decoding the bytes recovers the
original sample buffer; with every send succeeding, these packets are
exactly what the transport puts on the wire. -/
theorem c5_roundtrip (samples : List ℤ)
    (h : ∀ x ∈ samples, -32768 ≤ x ∧ x < 32768) :
    (∀ p ∈ packetize (sampleBytes samples),
        p.length = 4 + FRAME_SIZE ∧ p.take 4 = packetHeader) ∧
    (decodePayloads (packetize (sampleBytes samples))).take
        (sampleBytes samples).length = sampleBytes samples ∧
    bytesToSamples (sampleBytes samples) = samples ∧
    ∀ el : ℕ → ℤ,
      ((sendLoop (fun _ => true) el (sampleBytes samples) 0).1).map FrameRec.packet =
        packetize (sampleBytes samples) :=
  ⟨packetize_mem _, decodePayloads_packetize _, bytesToSamples_sampleBytes samples h,
   fun el => sendLoop_all_ok_packets el (sampleBytes samples) 0⟩

/-- C5, witness at the two-sample buffer `[1, -1]`. -/
theorem c5_roundtrip_witness :
    (∀ x ∈ [(1 : ℤ), -1], -32768 ≤ x ∧ x < 32768) ∧
    ((∀ p ∈ packetize (sampleBytes [(1 : ℤ), -1]),
        p.length = 4 + FRAME_SIZE ∧ p.take 4 = packetHeader) ∧
    (decodePayloads (packetize (sampleBytes [(1 : ℤ), -1]))).take
        (sampleBytes [(1 : ℤ), -1]).length = sampleBytes [(1 : ℤ), -1] ∧
    bytesToSamples (sampleBytes [(1 : ℤ), -1]) = [(1 : ℤ), -1] ∧
    ∀ el : ℕ → ℤ,
      ((sendLoop (fun _ => true) el (sampleBytes [(1 : ℤ), -1]) 0).1).map
          FrameRec.packet = packetize (sampleBytes [(1 : ℤ), -1])) :=
  ⟨by decide, c5_roundtrip [(1 : ℤ), -1] (by decide)⟩

/-- C6: in the pacing loop with every send succeeding, the sleep after
frame `i` (0-based) is exactly `max 0 ((i+1) * 20000 - elapsedMicros)`,
where `elapsedMicros` is the monotonic time observed after sending frame
`i`, measured from the start timestamp taken before frame 0 — the target
is anchored to absolute elapsed time, not accumulated per frame. -/
theorem c6_pacing (samples : List ℤ) (elapsed : ℕ → ℤ) (i : ℕ) (r : FrameRec)
    (h : ((sendAudioToDVMBridge samples (fun _ => true) elapsed).frames).get? i =
      some r) :
    r.sleptUsec = max 0 (((i : ℤ) + 1) * 20000 - elapsed i) := by
  have hs := sendLoop_slept elapsed (sampleBytes samples) 0 i r h
  simpa using hs

/-- C6, witness: one frame, elapsed 5000 µs, sleeping 15000 µs. -/
theorem c6_pacing_witness :
    ((sendAudioToDVMBridge [(0 : ℤ)] (fun _ => true) (fun _ => 5000)).frames).get? 0 =
      some ⟨buildPacket (sampleBytes [(0 : ℤ)]), 15000⟩ ∧
    (⟨buildPacket (sampleBytes [(0 : ℤ)]), 15000⟩ : FrameRec).sleptUsec =
      max 0 (((0 : ℤ) + 1) * 20000 - 5000) := by
  have hget : ((sendAudioToDVMBridge [(0 : ℤ)] (fun _ => true)
      (fun _ => 5000)).frames).get? 0 =
      some ⟨buildPacket (sampleBytes [(0 : ℤ)]), 15000⟩ := by
    show ((sendLoop (fun _ => true) (fun _ => (5000 : ℤ))
        (sampleBytes [(0 : ℤ)]) 0).1).get? 0 =
      some ⟨buildPacket (sampleBytes [(0 : ℤ)]), 15000⟩
    rw [show sampleBytes [(0 : ℤ)] = [0, 0] from rfl, sendLoop_cons_unfold,
      List.get?_cons_zero]
    norm_num
  exact ⟨hget, c6_pacing [(0 : ℤ)] (fun _ => 5000) 0 _ hget⟩

/-- The byte stream of 161 zero samples is 322 zero bytes. -/
theorem sampleBytes_zeros_161 :
    sampleBytes (List.replicate 161 (0 : ℤ)) = List.replicate 322 (0 : ℕ) := rfl

/-- The transport's observable outcome when the very first send fails on
a two-frame buffer of 161 zero samples. -/
theorem sendAudio_first_send_fails :
    sendAudioToDVMBridge (List.replicate 161 (0 : ℤ)) (fun _ => false) (fun _ => 0) =
      { frames := [], sendError := true, socketClosed := true,
        diags := [Diag.sendingInfo 322 1, Diag.sendtoErr, Diag.doneMsg] } := by
  have hloop : sendLoop (fun _ => false) (fun _ => (0 : ℤ))
      (List.replicate 322 (0 : ℕ)) 0 = ([], true) := by
    rw [show List.replicate 322 (0 : ℕ) = 0 :: List.replicate 321 0 from rfl,
      sendLoop_cons]
    rfl
  show SendResult.mk
      (sendLoop (fun _ => false) (fun _ => (0 : ℤ))
        (sampleBytes (List.replicate 161 (0 : ℤ))) 0).1
      (sendLoop (fun _ => false) (fun _ => (0 : ℤ))
        (sampleBytes (List.replicate 161 (0 : ℤ))) 0).2
      true
      ([Diag.sendingInfo (sampleBytes (List.replicate 161 (0 : ℤ))).length
          ((sampleBytes (List.replicate 161 (0 : ℤ))).length / FRAME_SIZE)] ++
        (if (sendLoop (fun _ => false) (fun _ => (0 : ℤ))
            (sampleBytes (List.replicate 161 (0 : ℤ))) 0).2 then [Diag.sendtoErr]
         else []) ++ [Diag.doneMsg]) = _
  rw [sampleBytes_zeros_161, hloop]
  rfl

/-- C7, counterexample: on a run whose very first send fails, the
function (which returns `void`) surfaces no count of successfully sent
frames: the only numeric diagnostic is the pre-transmission
"Sending 322 bytes (1 frames)" line, whose frame count 1 differs from
the 0 frames actually sent. -/
theorem c7_counterexample :
    (sendAudioToDVMBridge (List.replicate 161 (0 : ℤ)) (fun _ => false)
        (fun _ => 0)).frames.length = 0 ∧
    (sendAudioToDVMBridge (List.replicate 161 (0 : ℤ)) (fun _ => false)
        (fun _ => 0)).sendError = true ∧
    (sendAudioToDVMBridge (List.replicate 161 (0 : ℤ)) (fun _ => false)
        (fun _ => 0)).diags = [Diag.sendingInfo 322 1, Diag.sendtoErr, Diag.doneMsg] ∧
    ∀ b f : ℕ, Diag.sendingInfo b f ∈
        (sendAudioToDVMBridge (List.replicate 161 (0 : ℤ)) (fun _ => false)
          (fun _ => 0)).diags →
      f ≠ (sendAudioToDVMBridge (List.replicate 161 (0 : ℤ)) (fun _ => false)
          (fun _ => 0)).frames.length := by
  rw [sendAudio_first_send_fails]
  refine ⟨rfl, rfl, rfl, ?_⟩
  intro b f hf
  simp only [List.mem_cons, List.not_mem_nil, or_false] at hf
  rcases hf with hf | hf | hf
  · injection hf with hb hfv
    simp [hfv]
  · exact absurd hf (by simp)
  · exact absurd hf (by simp)

/-- C7, amended: a send failure at frame `k` (after `k` successful
sends) aborts the remaining transmission immediately with no retry — the
wire carries exactly the first `k` packets — the error flag is set, the
socket is still closed, and the process is not terminated; but the count
of successfully sent frames is NOT reported to the caller: the function
returns `void` and its diagnostics carry only the total byte count and
the intended total frame count computed before transmission. -/
theorem c7_amended (samples : List ℤ) (sendOk : ℕ → Bool) (elapsed : ℕ → ℤ) (k : ℕ)
    (hok : ∀ i, i < k → sendOk i = true) (hfail : sendOk k = false)
    (hk : k < ((sampleBytes samples).length + FRAME_SIZE - 1) / FRAME_SIZE) :
    (sendAudioToDVMBridge samples sendOk elapsed).frames.map FrameRec.packet =
      (packetize (sampleBytes samples)).take k ∧
    (sendAudioToDVMBridge samples sendOk elapsed).frames.length = k ∧
    (sendAudioToDVMBridge samples sendOk elapsed).sendError = true ∧
    (sendAudioToDVMBridge samples sendOk elapsed).socketClosed = true ∧
    (sendAudioToDVMBridge samples sendOk elapsed).diags =
      [Diag.sendingInfo (sampleBytes samples).length
        ((sampleBytes samples).length / FRAME_SIZE),
       Diag.sendtoErr, Diag.doneMsg] := by
  obtain ⟨h1, h2, h3⟩ := sendLoop_fail sendOk elapsed k (sampleBytes samples) 0
    (fun i hi => by rw [Nat.zero_add]; exact hok i hi)
    (by rw [Nat.zero_add]; exact hfail) hk
  refine ⟨h1, h2, h3, rfl, ?_⟩
  show [Diag.sendingInfo (sampleBytes samples).length
      ((sampleBytes samples).length / FRAME_SIZE)] ++
    (if (sendLoop sendOk elapsed (sampleBytes samples) 0).2 then [Diag.sendtoErr]
     else []) ++ [Diag.doneMsg] = _
  rw [h3]
  rfl

/-- C7, witness for the amended theorem: 161 samples (two frames), the
second send failing. -/
theorem c7_amended_witness :
    (∀ i, i < 1 → (fun n => decide (n < 1)) i = true) ∧
    (fun n => decide (n < 1)) 1 = false ∧
    1 < ((sampleBytes (List.replicate 161 (0 : ℤ))).length + FRAME_SIZE - 1) /
      FRAME_SIZE ∧
    ((sendAudioToDVMBridge (List.replicate 161 (0 : ℤ)) (fun n => decide (n < 1))
        (fun _ => 0)).frames.map FrameRec.packet =
      (packetize (sampleBytes (List.replicate 161 (0 : ℤ)))).take 1 ∧
    (sendAudioToDVMBridge (List.replicate 161 (0 : ℤ)) (fun n => decide (n < 1))
        (fun _ => 0)).frames.length = 1 ∧
    (sendAudioToDVMBridge (List.replicate 161 (0 : ℤ)) (fun n => decide (n < 1))
        (fun _ => 0)).sendError = true ∧
    (sendAudioToDVMBridge (List.replicate 161 (0 : ℤ)) (fun n => decide (n < 1))
        (fun _ => 0)).socketClosed = true ∧
    (sendAudioToDVMBridge (List.replicate 161 (0 : ℤ)) (fun n => decide (n < 1))
        (fun _ => 0)).diags =
      [Diag.sendingInfo (sampleBytes (List.replicate 161 (0 : ℤ))).length
        ((sampleBytes (List.replicate 161 (0 : ℤ))).length / FRAME_SIZE),
       Diag.sendtoErr, Diag.doneMsg]) :=
  ⟨by decide, by decide,
   by rw [sampleBytes_zeros_161, List.length_replicate]; decide,
   c7_amended (List.replicate 161 (0 : ℤ)) (fun n => decide (n < 1)) (fun _ => 0) 1
     (by decide) (by decide)
     (by rw [sampleBytes_zeros_161, List.length_replicate]; decide)⟩

end TimeAnnounce
